import Mathlib

/-!
Shallow embedding of the eCFR analytics module (`apps/lake/analytics.py`).

The module runs read-only SQL queries against precomputed tables and
reshapes the rows into records.  We embed each query as a pure function
over an explicit input table (a `List` of row structures): `WHERE`
becomes `List.filter`, `ORDER BY` becomes a stable `List.insertionSort`,
`LIMIT k` becomes `List.take k`, and the per-row column shaping
(including `ROUND(x, 1)`) becomes a record-to-record map.  Python
optional values (SQL `NULL`) are `Option`; the truthiness tests that the
Python code performs (`if part:`, `if limit:`) are embedded by explicit
truthiness functions on the corresponding value types.  Floating point
columns (`rvi`, lag-day averages) are modelled as rationals.
-/

/-- A Python value as it appears in the `chapter` / `part` columns fed to
`calculate_word_counts`: SQL `NULL` (Python `None`), a string, or an
integer.  The estimator branches on Python truthiness of these values. -/
inductive PyVal where
  | null : PyVal
  | str (s : String) : PyVal
  | int (n : Int) : PyVal
deriving DecidableEq

/-- Python truthiness: `None` and `""` and `0` are falsy, everything else
truthy.  This is what `if part:` / `elif chapter:` test in the source. -/
def PyVal.truthy : PyVal → Bool
  | .null => false
  | .str s => decide (s ≠ "")
  | .int n => decide (n ≠ 0)

/-- One grouped row fed to the word-count loop: the result of
`SELECT agency_slug, title, chapter, part, COUNT(*) FROM cfr_references
GROUP BY agency_slug, title, chapter, part`. -/
structure GroupedRef where
  agency_slug : String
  title : Int
  chapter : PyVal
  part : PyVal
  ref_count : Nat
deriving DecidableEq

/-- The tiered weight chosen for one row, exactly as the `if part: ...
elif chapter: ... else: ...` chain in `calculate_word_counts`. -/
def tierWeight (chapter part : PyVal) : Nat :=
  if part.truthy then 2000
  else if chapter.truthy then 10000
  else 50000

/-- Lookup in a Python-dict-like association list (`word_counts[slug]` /
`slug in word_counts`). -/
def calistGet : List (String × Nat) → String → Option Nat
  | [], _ => Option.none
  | p :: d, k => if p.1 = k then some p.2 else calistGet d k

/-- Update of a Python-dict-like association list
(`word_counts[slug] = v`): overwrite in place if the key is present,
append otherwise (Python dicts keep insertion order). -/
def calistSet : List (String × Nat) → String → Nat → List (String × Nat)
  | [], k, v => [(k, v)]
  | p :: d, k, v => if p.1 = k then (k, v) :: d else p :: calistSet d k v

/-- One iteration of the loop body of `calculate_word_counts`:
initialize the slug to `0` when unseen, then add
`ref_count * weight` for the row's tier. -/
def wordCountStep (wc : List (String × Nat)) (r : GroupedRef) : List (String × Nat) :=
  let wc1 := if (calistGet wc r.agency_slug).isSome then wc
             else calistSet wc r.agency_slug 0
  calistSet wc1 r.agency_slug
    ((calistGet wc1 r.agency_slug).getD 0 + r.ref_count * tierWeight r.chapter r.part)

/-- `calculate_word_counts`: fold the tiered-estimation loop over the
grouped reference rows, starting from an empty dict. -/
def calculate_word_counts (rows : List GroupedRef) : List (String × Nat) :=
  rows.foldl wordCountStep []

/-- Specification-side total: the sum over the rows of a given agency of
`ref_count * tierWeight`. -/
def sumContrib (rows : List GroupedRef) (s : String) : Nat :=
  ((rows.filter (fun r => decide (r.agency_slug = s))).map
    (fun r => r.ref_count * tierWeight r.chapter r.part)).sum

theorem calistGet_set_self (d : List (String × Nat)) (k : String) (v : Nat) :
    calistGet (calistSet d k v) k = some v := by
  induction d with
  | nil => simp [calistSet, calistGet]
  | cons p d ih =>
    by_cases h : p.1 = k
    · simp [calistSet, calistGet, h]
    · simp [calistSet, calistGet, h, ih]

theorem calistGet_set_ne (d : List (String × Nat)) (k k' : String) (v : Nat)
    (h : k' ≠ k) : calistGet (calistSet d k v) k' = calistGet d k' := by
  have h2 : ¬(k = k') := fun hh => h hh.symm
  induction d with
  | nil => simp [calistSet, calistGet, h2]
  | cons p d ih =>
    by_cases hp : p.1 = k
    · subst hp
      simp [calistSet, calistGet, h2]
    · by_cases hp' : p.1 = k' <;> simp [calistSet, calistGet, hp, hp', ih, h]

theorem calistGet_step_self (wc : List (String × Nat)) (r : GroupedRef) :
    calistGet (wordCountStep wc r) r.agency_slug =
      some ((calistGet wc r.agency_slug).getD 0
            + r.ref_count * tierWeight r.chapter r.part) := by
  unfold wordCountStep
  by_cases h : (calistGet wc r.agency_slug).isSome
  · simp [h, calistGet_set_self]
  · have hn : calistGet wc r.agency_slug = Option.none := by
      cases hh : calistGet wc r.agency_slug with
      | none => rfl
      | some x => rw [hh] at h; simp at h
    simp [h, hn, calistGet_set_self]

theorem calistGet_step_ne (wc : List (String × Nat)) (r : GroupedRef)
    (s : String) (h : s ≠ r.agency_slug) :
    calistGet (wordCountStep wc r) s = calistGet wc s := by
  unfold wordCountStep
  by_cases h0 : (calistGet wc r.agency_slug).isSome <;>
    simp [h0, calistGet_set_ne _ _ _ _ h]

theorem sumContrib_cons_self (r : GroupedRef) (rows : List GroupedRef) :
    sumContrib (r :: rows) r.agency_slug =
      r.ref_count * tierWeight r.chapter r.part + sumContrib rows r.agency_slug := by
  simp [sumContrib, List.filter_cons]

theorem sumContrib_cons_ne (r : GroupedRef) (rows : List GroupedRef) (s : String)
    (h : ¬(r.agency_slug = s)) :
    sumContrib (r :: rows) s = sumContrib rows s := by
  simp [sumContrib, List.filter_cons, h]

theorem foldl_wordCountStep_getD (rows : List GroupedRef) :
    ∀ (wc : List (String × Nat)) (s : String),
      (calistGet (rows.foldl wordCountStep wc) s).getD 0 =
        (calistGet wc s).getD 0 + sumContrib rows s := by
  induction rows with
  | nil => intro wc s; simp [sumContrib]
  | cons r rows ih =>
    intro wc s
    rw [List.foldl_cons, ih]
    by_cases hs : r.agency_slug = s
    · subst hs
      rw [calistGet_step_self wc r, sumContrib_cons_self]
      simp only [Option.getD_some]
      omega
    · rw [calistGet_step_ne wc r s (Ne.symm hs), sumContrib_cons_ne r rows s hs]

theorem foldl_wordCountStep_isSome (rows : List GroupedRef) :
    ∀ (wc : List (String × Nat)) (s : String),
      (calistGet (rows.foldl wordCountStep wc) s).isSome =
        ((calistGet wc s).isSome || rows.any (fun r => decide (r.agency_slug = s))) := by
  induction rows with
  | nil => intro wc s; simp
  | cons r rows ih =>
    intro wc s
    rw [List.foldl_cons, ih]
    by_cases hs : r.agency_slug = s
    · subst hs
      rw [calistGet_step_self wc r]
      simp
    · rw [calistGet_step_ne wc r s (Ne.symm hs)]
      simp [List.any_cons, hs]

/-- Characterization of `calculate_word_counts`: an agency's entry is
the sum of `ref_count * tierWeight` over its rows, present exactly when
the agency occurs in the input. -/
theorem calculate_word_counts_get (rows : List GroupedRef) (s : String) :
    calistGet (calculate_word_counts rows) s =
      if rows.any (fun r => decide (r.agency_slug = s)) then
        some (sumContrib rows s)
      else Option.none := by
  have hA := foldl_wordCountStep_getD rows [] s
  have hB := foldl_wordCountStep_isSome rows [] s
  unfold calculate_word_counts
  simp only [calistGet, Option.getD_none, Option.isSome_none, Bool.false_or,
    Nat.zero_add] at hA hB
  by_cases h : rows.any (fun r => decide (r.agency_slug = s)) = true
  · rw [if_pos h]
    rw [h] at hB
    cases hg : calistGet (rows.foldl wordCountStep []) s with
    | none => rw [hg] at hB; simp at hB
    | some x =>
      rw [hg] at hA
      simp only [Option.getD_some] at hA
      rw [hA]
  · have hfalse : rows.any (fun r => decide (r.agency_slug = s)) = false := by
      cases hx : rows.any (fun r => decide (r.agency_slug = s)) with
      | false => rfl
      | true => exact absurd hx h
    rw [if_neg h]
    rw [hfalse] at hB
    cases hg : calistGet (rows.foldl wordCountStep []) s with
    | none => rfl
    | some x => rw [hg] at hB; simp at hB

/-- A row of the `agency_metrics` table (the storage-engine view the
aggregator reads).  Float columns are modelled as rationals; nullable
columns as `Option`. -/
structure AgencyRow where
  slug : String
  name : String
  short_name : Option String
  parent_slug : Option String
  cfr_reference_count : Nat
  child_count : Nat
  total_corrections : Nat
  years_with_corrections : Nat
  first_correction_year : Option Int
  last_correction_year : Option Int
  avg_correction_lag_days : Option ℚ
  rvi : ℚ
deriving DecidableEq

/-- SQL `ROUND(x, 1)`: round to one decimal place. -/
def roundTo1 (q : ℚ) : ℚ := ((⌊q * 10 + 1 / 2⌋ : ℤ) : ℚ) / 10

/-- `ROUND` applied to a nullable column (`ROUND(NULL, 1)` is `NULL`). -/
def roundTo1Opt (q : Option ℚ) : Option ℚ := q.map roundTo1

/-- The record built by `get_agency_metrics` / `get_agency_detail`:
the twelve selected columns, with `avg_correction_lag_days` rounded. -/
structure AgencyMetric where
  slug : String
  name : String
  short_name : Option String
  parent_slug : Option String
  cfr_reference_count : Nat
  child_count : Nat
  total_corrections : Nat
  years_with_corrections : Nat
  first_correction_year : Option Int
  last_correction_year : Option Int
  avg_correction_lag_days : Option ℚ
  rvi : ℚ
deriving DecidableEq

/-- Column shaping of the twelve-column `SELECT` over `agency_metrics`. -/
def toAgencyMetric (r : AgencyRow) : AgencyMetric :=
  { slug := r.slug
    name := r.name
    short_name := r.short_name
    parent_slug := r.parent_slug
    cfr_reference_count := r.cfr_reference_count
    child_count := r.child_count
    total_corrections := r.total_corrections
    years_with_corrections := r.years_with_corrections
    first_correction_year := r.first_correction_year
    last_correction_year := r.last_correction_year
    avg_correction_lag_days := roundTo1Opt r.avg_correction_lag_days
    rvi := r.rvi }

/-- `ORDER BY total_corrections DESC` comparison. -/
def corrDescLe (a b : AgencyRow) : Prop :=
  b.total_corrections ≤ a.total_corrections

instance : DecidableRel corrDescLe := fun a b =>
  inferInstanceAs (Decidable (b.total_corrections ≤ a.total_corrections))

instance : IsTotal AgencyRow corrDescLe :=
  ⟨fun a b => le_total b.total_corrections a.total_corrections⟩

instance : IsTrans AgencyRow corrDescLe :=
  ⟨fun _ _ _ hab hbc => le_trans hbc hab⟩

/-- `get_agency_metrics(limit=None)`: select the twelve columns from
`agency_metrics`, `ORDER BY total_corrections DESC`, and append a
`LIMIT` clause only when the Python value `limit` is truthy (so
`limit=None` and `limit=0` both return the whole table). -/
def get_agency_metrics (table : List AgencyRow) (limit : Option Nat) :
    List AgencyMetric :=
  let sorted := List.insertionSort corrDescLe table
  let limited := match limit with
    | Option.none => sorted
    | some k => if k ≠ 0 then sorted.take k else sorted
  limited.map toAgencyMetric

/-- A row of the `correction_trends_yearly` view. -/
structure YearlyRow where
  year : Int
  correction_count : Nat
  unique_titles : Nat
  avg_lag_days : Option ℚ
  min_lag_days : Option Int
  max_lag_days : Option Int
deriving DecidableEq

/-- The record built by `get_correction_trends_yearly`. -/
structure YearlyTrend where
  year : Int
  correction_count : Nat
  unique_titles : Nat
  avg_lag_days : Option ℚ
  min_lag_days : Option Int
  max_lag_days : Option Int
deriving DecidableEq

def toYearlyTrend (r : YearlyRow) : YearlyTrend :=
  { year := r.year
    correction_count := r.correction_count
    unique_titles := r.unique_titles
    avg_lag_days := roundTo1Opt r.avg_lag_days
    min_lag_days := r.min_lag_days
    max_lag_days := r.max_lag_days }

/-- `ORDER BY year` comparison. -/
def yearAscLe (a b : YearlyRow) : Prop := a.year ≤ b.year

instance : DecidableRel yearAscLe := fun a b =>
  inferInstanceAs (Decidable (a.year ≤ b.year))

instance : IsTotal YearlyRow yearAscLe := ⟨fun a b => le_total a.year b.year⟩

instance : IsTrans YearlyRow yearAscLe := ⟨fun _ _ _ hab hbc => le_trans hab hbc⟩

/-- `get_correction_trends_yearly`: select from `correction_trends_yearly`
ordered by year ascending (no limit). -/
def get_correction_trends_yearly (table : List YearlyRow) : List YearlyTrend :=
  (List.insertionSort yearAscLe table).map toYearlyTrend

/-- A row of the `correction_trends_by_title` view. -/
structure TitleRow where
  title : Int
  correction_count : Nat
  years_active : Nat
  first_year : Int
  last_year : Int
  avg_lag_days : Option ℚ
deriving DecidableEq

/-- The record built by `get_correction_trends_by_title`. -/
structure TitleTrend where
  title : Int
  correction_count : Nat
  years_active : Nat
  first_year : Int
  last_year : Int
  avg_lag_days : Option ℚ
deriving DecidableEq

def toTitleTrend (r : TitleRow) : TitleTrend :=
  { title := r.title
    correction_count := r.correction_count
    years_active := r.years_active
    first_year := r.first_year
    last_year := r.last_year
    avg_lag_days := roundTo1Opt r.avg_lag_days }

/-- `ORDER BY correction_count DESC` comparison. -/
def titleCorrDescLe (a b : TitleRow) : Prop :=
  b.correction_count ≤ a.correction_count

instance : DecidableRel titleCorrDescLe := fun a b =>
  inferInstanceAs (Decidable (b.correction_count ≤ a.correction_count))

instance : IsTotal TitleRow titleCorrDescLe :=
  ⟨fun a b => le_total b.correction_count a.correction_count⟩

instance : IsTrans TitleRow titleCorrDescLe :=
  ⟨fun _ _ _ hab hbc => le_trans hbc hab⟩

/-- `get_correction_trends_by_title(limit=20)`: ordered by
`correction_count` descending, always limited (the `LIMIT` clause is
interpolated unconditionally). -/
def get_correction_trends_by_title (table : List TitleRow) (limit : Nat) :
    List TitleTrend :=
  (((List.insertionSort titleCorrDescLe table).take limit).map toTitleTrend)

/-- A row of the `correction_time_series` view. -/
structure TimeSeriesRow where
  year : Int
  month : Int
  correction_count : Nat
  avg_lag_days : Option ℚ
deriving DecidableEq

/-- The record built by `get_time_series_data`. -/
structure TimeSeriesPoint where
  year : Int
  month : Int
  correction_count : Nat
  avg_lag_days : Option ℚ
deriving DecidableEq

def toTimeSeriesPoint (r : TimeSeriesRow) : TimeSeriesPoint :=
  { year := r.year
    month := r.month
    correction_count := r.correction_count
    avg_lag_days := roundTo1Opt r.avg_lag_days }

/-- `ORDER BY year, month` comparison (lexicographic ascending). -/
def yearMonthLe (a b : TimeSeriesRow) : Prop :=
  a.year < b.year ∨ (a.year = b.year ∧ a.month ≤ b.month)

instance : DecidableRel yearMonthLe := fun a b =>
  inferInstanceAs (Decidable (a.year < b.year ∨ (a.year = b.year ∧ a.month ≤ b.month)))

instance : IsTotal TimeSeriesRow yearMonthLe :=
  ⟨fun a b => by unfold yearMonthLe; omega⟩

instance : IsTrans TimeSeriesRow yearMonthLe :=
  ⟨fun a b c hab hbc => by unfold yearMonthLe at *; omega⟩

/-- `get_time_series_data`: ordered by `(year, month)` ascending. -/
def get_time_series_data (table : List TimeSeriesRow) : List TimeSeriesPoint :=
  (List.insertionSort yearMonthLe table).map toTimeSeriesPoint

/-- The six-column record built by `get_top_agencies_by_rvi`
(`slug, name, short_name, total_corrections, cfr_reference_count, rvi`). -/
structure RviRecord where
  slug : String
  name : String
  short_name : Option String
  total_corrections : Nat
  cfr_reference_count : Nat
  rvi : ℚ
deriving DecidableEq

def toRviRecord (r : AgencyRow) : RviRecord :=
  { slug := r.slug
    name := r.name
    short_name := r.short_name
    total_corrections := r.total_corrections
    cfr_reference_count := r.cfr_reference_count
    rvi := r.rvi }

/-- `ORDER BY rvi DESC` comparison. -/
def rviDescLe (a b : AgencyRow) : Prop := b.rvi ≤ a.rvi

instance : DecidableRel rviDescLe := fun a b =>
  inferInstanceAs (Decidable (b.rvi ≤ a.rvi))

instance : IsTotal AgencyRow rviDescLe := ⟨fun a b => le_total b.rvi a.rvi⟩

instance : IsTrans AgencyRow rviDescLe := ⟨fun _ _ _ hab hbc => le_trans hbc hab⟩

/-- `get_top_agencies_by_rvi(limit=20)`: `WHERE total_corrections > 0`,
`ORDER BY rvi DESC`, `LIMIT limit`, selecting six columns. -/
def get_top_agencies_by_rvi (table : List AgencyRow) (limit : Nat) :
    List RviRecord :=
  (((List.insertionSort rviDescLe
      (table.filter (fun r => decide (0 < r.total_corrections)))).take
        limit).map toRviRecord)

/-- A value in one of the Python record dicts the module returns. -/
inductive ColValue where
  | vStr (s : String) : ColValue
  | vOptStr (s : Option String) : ColValue
  | vNat (n : Nat) : ColValue
  | vRat (q : ℚ) : ColValue
deriving DecidableEq

/-- The Python dict built for one row of `get_top_agencies_by_rvi` by
`dict(zip(columns, row))` with
`columns = ['slug', 'name', 'short_name', 'total_corrections',
'cfr_reference_count', 'rvi']`: its keys are exactly those six column
names. -/
def rviRecordToDict (r : RviRecord) : List (String × ColValue) :=
  [("slug", ColValue.vStr r.slug),
   ("name", ColValue.vStr r.name),
   ("short_name", ColValue.vOptStr r.short_name),
   ("total_corrections", ColValue.vNat r.total_corrections),
   ("cfr_reference_count", ColValue.vNat r.cfr_reference_count),
   ("rvi", ColValue.vRat r.rvi)]

/-- `get_top_agencies_by_rvi` as the list of Python dicts the source
actually returns. -/
def get_top_agencies_by_rvi_dicts (table : List AgencyRow) (limit : Nat) :
    List (List (String × ColValue)) :=
  (get_top_agencies_by_rvi table limit).map rviRecordToDict

/-- `get_agency_detail(slug)`: `WHERE slug = ?` with `fetchone()`, then
`None` when no row matched, else the twelve-column record. -/
def get_agency_detail (table : List AgencyRow) (slug : String) :
    Option AgencyMetric :=
  (table.find? (fun r => decide (r.slug = slug))).map toAgencyMetric

/-- A raw row of the `cfr_references` table. -/
structure CfrReference where
  agency_slug : String
  title : Int
  chapter : PyVal
  part : PyVal
deriving DecidableEq

/-- A row of the `corrections_parsed` table.  Dates are modelled as
integers (day ordinals), which preserves the SQL ordering. -/
structure Correction where
  ecfr_id : Int
  cfr_reference : String
  title : Int
  corrective_action : String
  error_occurred : Int
  error_corrected : Int
  lag_days : Int
  year : Int
deriving DecidableEq

/-- `ORDER BY c.year DESC, c.error_corrected DESC` comparison. -/
def corrYearDateDescLe (a b : Correction) : Prop :=
  b.year < a.year ∨ (a.year = b.year ∧ b.error_corrected ≤ a.error_corrected)

instance : DecidableRel corrYearDateDescLe := fun a b =>
  inferInstanceAs (Decidable
    (b.year < a.year ∨ (a.year = b.year ∧ b.error_corrected ≤ a.error_corrected)))

instance : IsTotal Correction corrYearDateDescLe :=
  ⟨fun a b => by unfold corrYearDateDescLe; omega⟩

instance : IsTrans Correction corrYearDateDescLe :=
  ⟨fun a b c hab hbc => by unfold corrYearDateDescLe at *; omega⟩

/-- `get_corrections_for_agency(slug, limit=100)`: keep the corrections
whose `title` is among the titles referenced by the agency (the
`DISTINCT`-titles CTE joined by `title` yields each matching correction
once), order by year then correction date descending, and truncate. -/
def get_corrections_for_agency (refs : List CfrReference)
    (corrections : List Correction) (slug : String) (limit : Nat) :
    List Correction :=
  let agency_titles := (refs.filter (fun r => decide (r.agency_slug = slug))).map
    (fun r => r.title)
  (((List.insertionSort corrYearDateDescLe
      (corrections.filter (fun c => agency_titles.contains c.title))).take limit))

theorem calculate_word_counts_getD (rows : List GroupedRef) (s : String) :
    (calistGet (calculate_word_counts rows) s).getD 0 = sumContrib rows s := by
  have h := foldl_wordCountStep_getD rows [] s
  simpa [calculate_word_counts, calistGet] using h

theorem sumContrib_append (l1 l2 : List GroupedRef) (s : String) :
    sumContrib (l1 ++ l2) s = sumContrib l1 s + sumContrib l2 s := by
  simp [sumContrib, List.filter_append]

theorem tierWeight_pos (c p : PyVal) : 0 < tierWeight c p := by
  unfold tierWeight
  split
  · omega
  · split <;> omega

/-- C1: `calculate_word_counts` implements the tiered multiplier model:
each input row adds `reference_count` times the tier weight (part-level
2000, chapter-level 10000, title-level 50000) into a per-agency running
total starting at zero for unseen slugs; in particular, on the rows
`[("epa", 40, None, None, 2), ("epa", 40, "I", None, 3),
("epa", 40, "I", "A", 5)]` the estimate for `"epa"` is exactly
`140000`. -/
theorem claim_C1_word_counts_tiered_model :
    (∀ (rows : List GroupedRef) (s : String),
      calistGet (calculate_word_counts rows) s =
        if rows.any (fun r => decide (r.agency_slug = s)) then
          some (((rows.filter (fun r => decide (r.agency_slug = s))).map
            (fun r => r.ref_count *
              (if r.part.truthy then 2000
               else if r.chapter.truthy then 10000
               else 50000))).sum)
        else Option.none)
    ∧ calistGet (calculate_word_counts
        [⟨"epa", 40, PyVal.null, PyVal.null, 2⟩,
         ⟨"epa", 40, PyVal.str "I", PyVal.null, 3⟩,
         ⟨"epa", 40, PyVal.str "I", PyVal.str "A", 5⟩]) "epa" = some 140000 := by
  constructor
  · intro rows s
    rw [calculate_word_counts_get rows s]
    rfl
  · decide

/-- C2: tier exclusivity and priority: for every row exactly one of the
three tiers (part-present, chapter-present-without-part, neither)
applies, and it selects its weight; a row with both chapter and part
truthy gets the part weight 2000, never the chapter weight. -/
theorem claim_C2_tier_exclusivity :
    ∀ c p : PyVal,
      (p.truthy = true
        ∨ (p.truthy = false ∧ c.truthy = true)
        ∨ (p.truthy = false ∧ c.truthy = false))
      ∧ (p.truthy = true →
          ¬(p.truthy = false ∧ c.truthy = true)
          ∧ ¬(p.truthy = false ∧ c.truthy = false)
          ∧ tierWeight c p = 2000)
      ∧ ((p.truthy = false ∧ c.truthy = true) →
          ¬(p.truthy = true)
          ∧ ¬(p.truthy = false ∧ c.truthy = false)
          ∧ tierWeight c p = 10000)
      ∧ ((p.truthy = false ∧ c.truthy = false) →
          ¬(p.truthy = true)
          ∧ ¬(p.truthy = false ∧ c.truthy = true)
          ∧ tierWeight c p = 50000) := by
  intro c p
  cases hp : p.truthy <;> cases hc : c.truthy <;>
    simp [tierWeight, hp, hc]

theorem claim_C2_tier_exclusivity_witness :
    tierWeight (PyVal.str "I") (PyVal.str "A") = 2000 :=
  ((claim_C2_tier_exclusivity (PyVal.str "I") (PyVal.str "A")).2.1 (by decide)).2.2

/-- C7: word-count monotonicity and linearity: an agency's accumulated
estimate is the linear sum of the per-row contributions
`ref_count * weight` (no saturation), and strictly increasing the
`ref_count` of one row (same agency, same tier) strictly increases the
agency's estimate. -/
theorem claim_C7_word_count_monotonicity :
    ∀ (pre post : List GroupedRef) (r : GroupedRef) (c2 : Nat),
      r.ref_count < c2 →
      ((calistGet (calculate_word_counts (pre ++ r :: post)) r.agency_slug).getD 0 =
        sumContrib pre r.agency_slug
          + r.ref_count * tierWeight r.chapter r.part
          + sumContrib post r.agency_slug)
      ∧ ((calistGet (calculate_word_counts (pre ++ r :: post)) r.agency_slug).getD 0
          < (calistGet (calculate_word_counts
              (pre ++ { r with ref_count := c2 } :: post)) r.agency_slug).getD 0) := by
  intro pre post r c2 hlt
  have hsum1 : sumContrib (pre ++ r :: post) r.agency_slug =
      sumContrib pre r.agency_slug
        + (r.ref_count * tierWeight r.chapter r.part
            + sumContrib post r.agency_slug) := by
    rw [sumContrib_append, sumContrib_cons_self]
  have hsum2 : sumContrib (pre ++ { r with ref_count := c2 } :: post) r.agency_slug =
      sumContrib pre r.agency_slug
        + (c2 * tierWeight r.chapter r.part
            + sumContrib post r.agency_slug) := by
    rw [sumContrib_append]
    have h2 := sumContrib_cons_self { r with ref_count := c2 } post
    simpa using h2
  constructor
  · rw [calculate_word_counts_getD, hsum1]
    omega
  · rw [calculate_word_counts_getD, calculate_word_counts_getD, hsum1, hsum2]
    have hw : r.ref_count * tierWeight r.chapter r.part
        < c2 * tierWeight r.chapter r.part :=
      Nat.mul_lt_mul_of_pos_right hlt (tierWeight_pos r.chapter r.part)
    exact Nat.add_lt_add_left (Nat.add_lt_add_right hw _) _

theorem claim_C7_word_count_monotonicity_witness :
    ((calistGet (calculate_word_counts
        ([] ++ GroupedRef.mk "epa" 40 (PyVal.str "I") (PyVal.str "A") 5 :: []))
        "epa").getD 0 =
      sumContrib [] "epa" + 5 * tierWeight (PyVal.str "I") (PyVal.str "A")
        + sumContrib [] "epa")
    ∧ ((calistGet (calculate_word_counts
        ([] ++ GroupedRef.mk "epa" 40 (PyVal.str "I") (PyVal.str "A") 5 :: []))
        "epa").getD 0
      < (calistGet (calculate_word_counts
          ([] ++ GroupedRef.mk "epa" 40 (PyVal.str "I") (PyVal.str "A") 6 :: []))
          "epa").getD 0) :=
  claim_C7_word_count_monotonicity [] []
    (GroupedRef.mk "epa" 40 (PyVal.str "I") (PyVal.str "A") 5) 6 (by decide)

/-- C10: tier selection is by Python truthiness, not a null check: a
falsy `part` (absent, empty string, or integer 0) never selects the
part tier, the row instead contributing at the chapter weight when
`chapter` is truthy and at the title weight otherwise; likewise a falsy
`chapter` selects the title tier. -/
theorem claim_C10_truthiness_tier_selection :
    (∀ r : GroupedRef, r.part.truthy = false →
      tierWeight r.chapter r.part =
        if r.chapter.truthy then 10000 else 50000)
    ∧ (PyVal.str "").truthy = false
    ∧ (PyVal.int 0).truthy = false
    ∧ tierWeight (PyVal.str "I") (PyVal.str "") = 10000
    ∧ tierWeight (PyVal.str "I") (PyVal.int 0) = 10000
    ∧ tierWeight (PyVal.str "") (PyVal.str "") = 50000
    ∧ tierWeight (PyVal.int 0) PyVal.null = 50000
    ∧ calistGet (calculate_word_counts
        [⟨"a", 40, PyVal.str "I", PyVal.str "", 5⟩]) "a" = some 50000 := by
  refine ⟨?_, by decide, by decide, by decide, by decide, by decide, by decide, by decide⟩
  intro r h
  simp [tierWeight, h]

theorem claim_C10_truthiness_tier_selection_witness :
    tierWeight (GroupedRef.mk "a" 40 (PyVal.str "I") (PyVal.str "") 5).chapter
        (GroupedRef.mk "a" 40 (PyVal.str "I") (PyVal.str "") 5).part =
      if (GroupedRef.mk "a" 40 (PyVal.str "I") (PyVal.str "") 5).chapter.truthy
      then 10000 else 50000 :=
  claim_C10_truthiness_tier_selection.1
    (GroupedRef.mk "a" 40 (PyVal.str "I") (PyVal.str "") 5) (by decide)

/-- C3: the RVI filter invariant: `get_top_agencies_by_rvi` never
returns a record with `total_corrections = 0`; on the two concrete
metric rows `a` (0 corrections) and `b` (10 corrections, rvi 5) with
limit 10 it returns only the record for `b`. -/
theorem claim_C3_rvi_filter_invariant :
    (∀ (table : List AgencyRow) (limit : Nat) (rec : RviRecord),
      rec ∈ get_top_agencies_by_rvi table limit → 0 < rec.total_corrections)
    ∧ get_top_agencies_by_rvi
        [⟨"a", "A", Option.none, Option.none, 5, 0, 0, 0,
          Option.none, Option.none, Option.none, 0⟩,
         ⟨"b", "B", Option.none, Option.none, 2, 0, 10, 3,
          Option.none, Option.none, Option.none, 5⟩] 10
      = [⟨"b", "B", Option.none, 10, 2, 5⟩] := by
  constructor
  · intro table limit rec hrec
    unfold get_top_agencies_by_rvi at hrec
    obtain ⟨r, hr, hrec⟩ := List.mem_map.mp hrec
    have h1 : r ∈ List.insertionSort rviDescLe
        (table.filter (fun x => decide (0 < x.total_corrections))) :=
      List.mem_of_mem_take hr
    have h2 : r ∈ table.filter (fun x => decide (0 < x.total_corrections)) :=
      (List.mem_insertionSort rviDescLe).mp h1
    have h3 := (List.mem_filter.mp h2).2
    have h4 : 0 < r.total_corrections := of_decide_eq_true h3
    rw [← hrec]
    exact h4
  · decide

theorem claim_C3_rvi_filter_invariant_witness :
    0 < (RviRecord.mk "b" "B" Option.none 10 2 5).total_corrections :=
  claim_C3_rvi_filter_invariant.1
    [⟨"a", "A", Option.none, Option.none, 5, 0, 0, 0,
      Option.none, Option.none, Option.none, 0⟩,
     ⟨"b", "B", Option.none, Option.none, 2, 0, 10, 3,
      Option.none, Option.none, Option.none, 5⟩] 10
    (RviRecord.mk "b" "B" Option.none 10 2 5) (by decide)

/-- C9 counterexample: the claim that every record returned by
`get_top_agencies_by_rvi` carries all twelve AgencyMetric fields is
false: on a concrete one-row table the returned dict has no
`child_count` key (the query selects only six columns). -/
theorem claim_C9_counterexample_six_columns :
    ¬ (∀ d ∈ get_top_agencies_by_rvi_dicts
        [⟨"b", "B", Option.none, Option.none, 2, 0, 10, 3,
          Option.none, Option.none, Option.none, 5⟩] 10,
        ((d.map Prod.fst).contains "child_count"
          && (d.map Prod.fst).contains "parent_slug"
          && (d.map Prod.fst).contains "years_with_corrections"
          && (d.map Prod.fst).contains "first_correction_year"
          && (d.map Prod.fst).contains "last_correction_year"
          && (d.map Prod.fst).contains "avg_correction_lag_days") = true) := by
  decide

/-- C9 amended: every record returned by `get_top_agencies_by_rvi`
carries exactly the six fields `slug`, `name`, `short_name`,
`total_corrections`, `cfr_reference_count`, `rvi` (not the full
twelve-field AgencyMetric). -/
theorem claim_C9_amended_six_columns :
    ∀ (table : List AgencyRow) (limit : Nat),
      ∀ d ∈ get_top_agencies_by_rvi_dicts table limit,
        d.map Prod.fst =
          ["slug", "name", "short_name", "total_corrections",
           "cfr_reference_count", "rvi"] := by
  intro table limit d hd
  obtain ⟨rec, _, hrec⟩ := List.mem_map.mp hd
  rw [← hrec]
  rfl

theorem claim_C9_amended_six_columns_witness :
    (rviRecordToDict (RviRecord.mk "b" "B" Option.none 10 2 5)).map Prod.fst =
      ["slug", "name", "short_name", "total_corrections",
       "cfr_reference_count", "rvi"] :=
  claim_C9_amended_six_columns
    [⟨"b", "B", Option.none, Option.none, 2, 0, 10, 3,
      Option.none, Option.none, Option.none, 5⟩] 10
    (rviRecordToDict (RviRecord.mk "b" "B" Option.none 10 2 5)) (by decide)

/-- C4 counterexample: the claim fails at `limit = 0` for
`get_agency_metrics`: Python `if limit:` is false for `0`, so the
`LIMIT` clause is not appended and the one-row table yields one record,
not at most zero. -/
theorem claim_C4_counterexample_limit_zero :
    ¬ ((get_agency_metrics
        [⟨"a", "A", Option.none, Option.none, 5, 0, 3, 0,
          Option.none, Option.none, Option.none, 0⟩]
        (some 0)).length ≤ 0) := by
  decide

/-- C4 amended: limit correctness holds for `get_agency_metrics` for
every `k ≥ 1` (at `k = 0` the falsy limit disables the `LIMIT` clause
and the full listing is returned), and for
`get_correction_trends_by_title` for every `k ≥ 0`: at most `k` records
are returned, and they are the `k`-prefix of the unlimited listing
under the same sort. -/
theorem claim_C4_amended_limit_correctness :
    (∀ (table : List AgencyRow) (k : Nat), 1 ≤ k →
      (get_agency_metrics table (some k)).length ≤ k
      ∧ get_agency_metrics table (some k) =
          (get_agency_metrics table Option.none).take k)
    ∧ (∀ (table : List TitleRow) (k : Nat),
      (get_correction_trends_by_title table k).length ≤ k
      ∧ get_correction_trends_by_title table k =
          ((List.insertionSort titleCorrDescLe table).map toTitleTrend).take k) := by
  constructor
  · intro table k hk
    have hk0 : k ≠ 0 := by omega
    unfold get_agency_metrics
    simp only [hk0, if_true, ne_eq, not_false_iff]
    constructor
    · rw [List.map_take, List.length_take]
      omega
    · rw [List.map_take]
  · intro table k
    unfold get_correction_trends_by_title
    constructor
    · rw [List.length_map, List.length_take]
      omega
    · rw [List.map_take]

theorem claim_C4_amended_limit_correctness_witness :
    ((get_agency_metrics
        [⟨"a", "A", Option.none, Option.none, 5, 0, 3, 0,
          Option.none, Option.none, Option.none, 0⟩,
         ⟨"b", "B", Option.none, Option.none, 5, 0, 7, 0,
          Option.none, Option.none, Option.none, 0⟩]
        (some 1)).length ≤ 1)
    ∧ get_agency_metrics
        [⟨"a", "A", Option.none, Option.none, 5, 0, 3, 0,
          Option.none, Option.none, Option.none, 0⟩,
         ⟨"b", "B", Option.none, Option.none, 5, 0, 7, 0,
          Option.none, Option.none, Option.none, 0⟩]
        (some 1) =
      (get_agency_metrics
        [⟨"a", "A", Option.none, Option.none, 5, 0, 3, 0,
          Option.none, Option.none, Option.none, 0⟩,
         ⟨"b", "B", Option.none, Option.none, 5, 0, 7, 0,
          Option.none, Option.none, Option.none, 0⟩]
        Option.none).take 1 :=
  claim_C4_amended_limit_correctness.1
    [⟨"a", "A", Option.none, Option.none, 5, 0, 3, 0,
      Option.none, Option.none, Option.none, 0⟩,
     ⟨"b", "B", Option.none, Option.none, 5, 0, 7, 0,
      Option.none, Option.none, Option.none, 0⟩] 1 (by decide)

theorem find_eq_filter_head (p : AgencyRow → Bool) (l : List AgencyRow) :
    l.find? p = (l.filter p).head? := by
  induction l with
  | nil => simp
  | cons a l ih =>
    by_cases h : p a
    · simp [List.find?_cons, List.filter_cons, h]
    · rw [List.find?_cons_of_neg _ h, List.filter_cons_of_neg (by simp [h])]
      exact ih

/-- C5: lookup correctness of `get_agency_detail`: when exactly one
`agency_metrics` row has the given slug the call returns that row's
full twelve-field record (with `avg_correction_lag_days` rounded to one
decimal), and when no row has the slug it returns `None` — never a
partial or default record. -/
theorem claim_C5_agency_detail_lookup :
    ∀ (table : List AgencyRow) (slug : String),
      (∀ r : AgencyRow,
        table.filter (fun x => decide (x.slug = slug)) = [r] →
        get_agency_detail table slug =
          some { slug := r.slug
                 name := r.name
                 short_name := r.short_name
                 parent_slug := r.parent_slug
                 cfr_reference_count := r.cfr_reference_count
                 child_count := r.child_count
                 total_corrections := r.total_corrections
                 years_with_corrections := r.years_with_corrections
                 first_correction_year := r.first_correction_year
                 last_correction_year := r.last_correction_year
                 avg_correction_lag_days := roundTo1Opt r.avg_correction_lag_days
                 rvi := r.rvi })
      ∧ (table.filter (fun x => decide (x.slug = slug)) = [] →
          get_agency_detail table slug = Option.none) := by
  intro table slug
  constructor
  · intro r hfil
    unfold get_agency_detail
    rw [find_eq_filter_head, hfil]
    rfl
  · intro hfil
    unfold get_agency_detail
    rw [find_eq_filter_head, hfil]
    rfl

theorem claim_C5_agency_detail_lookup_witness :
    (get_agency_detail
      [⟨"a", "A", Option.none, Option.none, 5, 0, 0, 0,
        Option.none, Option.none, Option.none, 0⟩] "a" =
      some { slug := "a"
             name := "A"
             short_name := Option.none
             parent_slug := Option.none
             cfr_reference_count := 5
             child_count := 0
             total_corrections := 0
             years_with_corrections := 0
             first_correction_year := Option.none
             last_correction_year := Option.none
             avg_correction_lag_days := roundTo1Opt Option.none
             rvi := 0 })
    ∧ (get_agency_detail
      [⟨"a", "A", Option.none, Option.none, 5, 0, 0, 0,
        Option.none, Option.none, Option.none, 0⟩] "zz" = Option.none) :=
  ⟨(claim_C5_agency_detail_lookup
      [⟨"a", "A", Option.none, Option.none, 5, 0, 0, 0,
        Option.none, Option.none, Option.none, 0⟩] "a").1
      ⟨"a", "A", Option.none, Option.none, 5, 0, 0, 0,
        Option.none, Option.none, Option.none, 0⟩ (by decide),
   (claim_C5_agency_detail_lookup
      [⟨"a", "A", Option.none, Option.none, 5, 0, 0, 0,
        Option.none, Option.none, Option.none, 0⟩] "zz").2 (by decide)⟩

/-- C6: ordering laws: `get_correction_trends_yearly` output is
non-decreasing in `year`; `get_time_series_data` output is
non-decreasing in `(year, month)` lexicographically; and
`get_agency_metrics` output is non-increasing in `total_corrections`
(for every limit). -/
theorem claim_C6_ordering_laws :
    (∀ table : List YearlyRow,
      (get_correction_trends_yearly table).Pairwise
        (fun a b => a.year ≤ b.year))
    ∧ (∀ table : List TimeSeriesRow,
      (get_time_series_data table).Pairwise
        (fun a b => a.year < b.year ∨ (a.year = b.year ∧ a.month ≤ b.month)))
    ∧ (∀ (table : List AgencyRow) (limit : Option Nat),
      (get_agency_metrics table limit).Pairwise
        (fun a b => b.total_corrections ≤ a.total_corrections)) := by
  refine ⟨?_, ?_, ?_⟩
  · intro table
    have hs : List.Pairwise yearAscLe (List.insertionSort yearAscLe table) :=
      List.sorted_insertionSort yearAscLe table
    unfold get_correction_trends_yearly
    rw [List.pairwise_map]
    exact hs.imp (fun hab => hab)
  · intro table
    have hs : List.Pairwise yearMonthLe (List.insertionSort yearMonthLe table) :=
      List.sorted_insertionSort yearMonthLe table
    unfold get_time_series_data
    rw [List.pairwise_map]
    exact hs.imp (fun hab => hab)
  · intro table limit
    have hs : List.Pairwise corrDescLe (List.insertionSort corrDescLe table) :=
      List.sorted_insertionSort corrDescLe table
    have hmap : ∀ l : List AgencyRow, l.Pairwise corrDescLe →
        (l.map toAgencyMetric).Pairwise
          (fun a b => b.total_corrections ≤ a.total_corrections) := by
      intro l hl
      rw [List.pairwise_map]
      exact hl.imp (fun hab => hab)
    unfold get_agency_metrics
    cases limit with
    | none => exact hmap _ hs
    | some k =>
      dsimp only
      by_cases hk : k = 0
      · rw [if_neg (by simp [hk])]
        exact hmap _ hs
      · rw [if_pos hk]
        exact hmap _ (List.Pairwise.sublist (List.take_sublist _ _) hs)

/-- C8: `get_corrections_for_agency` returns corrections whose CFR
title is among the titles referenced by the agency, sorted by year
descending then correction date descending, truncated to the limit; for
one agency with corrections in years 2019, 2020, 2018 and limit 2 the
result has years 2020 then 2019. -/
theorem claim_C8_corrections_for_agency :
    (∀ (refs : List CfrReference) (corrections : List Correction)
        (slug : String) (limit : Nat),
      (∀ c ∈ get_corrections_for_agency refs corrections slug limit,
        c.title ∈ (refs.filter (fun r => decide (r.agency_slug = slug))).map
          (fun r => r.title))
      ∧ (∀ c ∈ corrections,
          c.title ∈ (refs.filter (fun r => decide (r.agency_slug = slug))).map
            (fun r => r.title) →
          (corrections.filter (fun c2 =>
            (((refs.filter (fun r => decide (r.agency_slug = slug))).map
              (fun r => r.title)).contains c2.title))).length ≤ limit →
          c ∈ get_corrections_for_agency refs corrections slug limit)
      ∧ (get_corrections_for_agency refs corrections slug limit).Pairwise
          (fun a b => b.year < a.year
            ∨ (a.year = b.year ∧ b.error_corrected ≤ a.error_corrected))
      ∧ (get_corrections_for_agency refs corrections slug limit).length ≤ limit)
    ∧ (get_corrections_for_agency
        [⟨"x", 7, PyVal.null, PyVal.null⟩]
        [⟨1, "7 CFR 1", 7, "fix", 100, 150, 50, 2019⟩,
         ⟨2, "7 CFR 2", 7, "fix", 200, 250, 50, 2020⟩,
         ⟨3, "7 CFR 3", 7, "fix", 300, 350, 50, 2018⟩]
        "x" 2).map (fun c => c.year) = [2020, 2019] := by
  constructor
  · intro refs corrections slug limit
    refine ⟨?_, ?_, ?_, ?_⟩
    · intro c hc
      unfold get_corrections_for_agency at hc
      dsimp only at hc
      have h1 := List.mem_of_mem_take hc
      have h2 := (List.mem_insertionSort corrYearDateDescLe).mp h1
      have h3 := (List.mem_filter.mp h2).2
      simpa using h3
    · intro c hc htitle hlen
      unfold get_corrections_for_agency
      dsimp only
      have hmemf : c ∈ corrections.filter (fun c2 =>
          (((refs.filter (fun r => decide (r.agency_slug = slug))).map
            (fun r => r.title)).contains c2.title)) :=
        List.mem_filter.mpr ⟨hc, by simpa using htitle⟩
      have hmems := (List.mem_insertionSort corrYearDateDescLe).mpr hmemf
      have hlen2 : (List.insertionSort corrYearDateDescLe
          (corrections.filter (fun c2 =>
            (((refs.filter (fun r => decide (r.agency_slug = slug))).map
              (fun r => r.title)).contains c2.title)))).length ≤ limit := by
        rw [List.length_insertionSort]
        exact hlen
      rw [List.take_of_length_le hlen2]
      exact hmems
    · unfold get_corrections_for_agency
      dsimp only
      have hs := List.sorted_insertionSort corrYearDateDescLe
        ((corrections.filter (fun c =>
          (((refs.filter (fun r => decide (r.agency_slug = slug))).map
            (fun r => r.title)).contains c.title))))
      exact (List.Pairwise.sublist (List.take_sublist _ _) hs).imp (fun hab => hab)
    · unfold get_corrections_for_agency
      dsimp only
      rw [List.length_take]
      omega
  · decide

theorem claim_C8_corrections_for_agency_witness :
    (Correction.mk 2 "7 CFR 2" 7 "fix" 200 250 50 2020).title ∈
      ([CfrReference.mk "x" 7 PyVal.null PyVal.null].filter
        (fun r => decide (r.agency_slug = "x"))).map (fun r => r.title) :=
  (claim_C8_corrections_for_agency.1
    [CfrReference.mk "x" 7 PyVal.null PyVal.null]
    [⟨1, "7 CFR 1", 7, "fix", 100, 150, 50, 2019⟩,
     ⟨2, "7 CFR 2", 7, "fix", 200, 250, 50, 2020⟩,
     ⟨3, "7 CFR 3", 7, "fix", 300, 350, 50, 2018⟩]
    "x" 2).1 (Correction.mk 2 "7 CFR 2" 7 "fix" 200 250 50 2020) (by decide)
